import Mathlib

/-!
Verification development for the CountDownTimerESP32 firmware
(src/CountDownTimerESP32.ino).

The embedding models the global mutable state of the sketch as an explicit
record `Sys`, and one iteration of the Arduino `loop()` as a pure function
`tick : TickInput → Sys → TickResult`.  All `unsigned long` / `long`
arithmetic of the target (32-bit ESP32) is modelled over `Nat` / `Int` with
explicit reduction modulo 2^32 where the C code wraps.  The FastLED and
Bounce2 libraries are external collaborators: a debounced button press is an
input boolean, the Bluetooth stream delivers at most one byte per tick, and
the LED strip is modelled as the list of (index, colour) writes the sketch
performs.  The two `millis()` calls that can occur inside one `loop()`
iteration (the tick's own read and the one inside `Start()`/`Stop()`) are
modelled as returning the same timestamp, since they happen within the same
iteration.
-/

namespace CountdownTimer

/-! ### 32-bit machine arithmetic -/

/-- Reduction modulo 2^32 (value of an `unsigned long` on ESP32). -/
def u32 (n : Nat) : Nat := n % 4294967296

/-- Subtraction of `unsigned long` values: `a - b` computed modulo 2^32. -/
def usub32 (a b : Nat) : Nat := (a + 4294967296 - b % 4294967296) % 4294967296

/-- Reinterpretation of a 32-bit unsigned value as a signed `long`
(two's complement), as happens when a `unsigned long` expression is
assigned to a `long` variable. -/
def toSigned32 (n : Nat) : Int :=
  if n % 4294967296 < 2147483648 then ((n % 4294967296 : Nat) : Int)
  else ((n % 4294967296 : Nat) : Int) - 4294967296

/-- Conversion of a signed value to `unsigned long` (reduction mod 2^32). -/
def intToU32 (i : Int) : Nat := (i % 4294967296).toNat

/-- Conversion of a signed value to `uint8_t` (reduction mod 2^8). -/
def intToU8 (i : Int) : Nat := (i % 256).toNat

/-- Reinterpretation of a byte as a signed `int8_t`. -/
def toSigned8 (n : Nat) : Int :=
  if n % 256 < 128 then ((n % 256 : Nat) : Int)
  else ((n % 256 : Nat) : Int) - 256

/-- C99 division of `long` values: truncation toward zero. -/
def cdiv (a b : Int) : Int := Int.tdiv a b

/-- C99 remainder of `long` values: sign follows the dividend. -/
def cmod (a b : Int) : Int := Int.tmod a b

/-- Multiplication of two `long` values on a 32-bit target: the product
wraps modulo 2^32 and is reinterpreted as signed. -/
def mulS32 (a b : Int) : Int := toSigned32 (intToU32 (a * b))

/-- Arduino `map(x, in_min, in_max, out_min, out_max)` over `long`:
`(x - in_min) * (out_max - out_min) / (in_max - in_min) + out_min`. -/
def mapArd (x inMin inMax outMin outMax : Int) : Int :=
  cdiv (mulS32 (x - inMin) (outMax - outMin)) (inMax - inMin) + outMin

/-! ### The digit mask table and `setDigit` -/

/-- Number of LEDs in each digit (`NUM_LEDS_PER_DIGIT`). -/
def NUM_LEDS_PER_DIGIT : Nat := 30

/-- Total number of LEDs in the strip (`NUM_LEDS`). -/
def NUM_LEDS : Nat := 120

/-- The fixed mask table `digits[10]`: bit `i` of entry `v` says whether
LED `i` of a digit block is lit when displaying the digit `v`.
Transcribed bit-for-bit from the source. -/
def digits : List Nat := [
  0b00011111111111101111111111110000,
  0b00011110000000000000000011110000,
  0b00000001111111100000111111111111,
  0b00011111111000000000111111111111,
  0b00011110000000001111000011111111,
  0b00011111111000001111111100001111,
  0b00011111111111101111111100001111,
  0b00011110000000000000111111110000,
  0b00011111111111101111111111111111,
  0b00011111111000001111111111111111]

/-- Arduino `bitRead(value, bit) = ((value) >> (bit)) & 0x01`. -/
def bitRead (value bit : Nat) : Nat := (value >>> bit) &&& 1

/-- FastLED `CHSV` colour: hue, saturation, value (brightness), each a
byte. -/
structure CHSV where
  h : Nat
  s : Nat
  v : Nat
deriving DecidableEq, Repr

/-- The writes performed by `setDigit(display, val, colour)`: for each
`i < NUM_LEDS_PER_DIGIT` it stores, at strip index
`display*NUM_LEDS_PER_DIGIT + i`, the base colour with its brightness
replaced by `bitRead(digits[val], i) * 255`.

Faithful only for `val` in `0..9`.  Outside that range the C array
access `digits[val]` is out of bounds (undefined behaviour), which a
shallow embedding cannot represent; the model then reads the table with
`getD`'s default.  The out-of-range case is reachable — a render with a
negative stored `timeValue` (e.g. after remote message "-1") calls
`setDigit` with digit value −1 — so every positive statement about
`setDigit`'s writes is restricted to `0..9`, and the reachable negative
call is exhibited separately as a violation of the render-bounds
claim. -/
def setDigitWrites (display : Nat) (val : Int) (colour : CHSV) : List (Nat × CHSV) :=
  (List.range NUM_LEDS_PER_DIGIT).map fun i =>
    (display * NUM_LEDS_PER_DIGIT + i,
      { colour with v := bitRead (digits.getD val.toNat 0) i * 255 })

/-! ### FastLED colour helpers used while idle -/

/-- FastLED `scale8`: `(i * (1 + scale)) >> 8` on bytes. -/
def scale8 (i sc : Nat) : Nat := ((i % 256) * (1 + sc % 256)) / 256

/-- Interleaved base/slope table used by FastLED `sin8_C`. -/
def sinInterleave : List Nat := [0, 49, 49, 41, 90, 27, 117, 10]

/-- FastLED `sin8_C`: piecewise-linear sine approximation on bytes. -/
def sin8 (theta0 : Nat) : Nat :=
  let theta := theta0 % 256
  let offset0 := if theta &&& 64 ≠ 0 then 255 - theta else theta
  let offset := offset0 &&& 63
  let secoffset0 := offset &&& 15
  let secoffset := if theta &&& 64 ≠ 0 then secoffset0 + 1 else secoffset0
  let sect := offset >>> 4
  let b := sinInterleave.getD (sect * 2) 0
  let m16 := sinInterleave.getD (sect * 2 + 1) 0
  let mx := (m16 * secoffset) >>> 4
  let y0 := toSigned8 (mx + b)
  let y1 := if theta &&& 128 ≠ 0 then -y0 else y0
  intToU8 (y1 + 128)

/-- FastLED `beat88` at timebase 0: `(millis * bpm88 * 280) >> 16` with the
product wrapping at 32 bits, result a `uint16_t`. -/
def beat88v (bpm88 time : Nat) : Nat := (u32 (time * bpm88 * 280)) >>> 16

/-- FastLED `beat16`: BPM below 256 is promoted to Q8.8. -/
def beat16v (bpm time : Nat) : Nat :=
  beat88v (if bpm < 256 then bpm * 256 else bpm) time

/-- FastLED `beat8`: high byte of `beat16`. -/
def beat8v (bpm time : Nat) : Nat := (beat16v bpm time) >>> 8 % 256

/-- FastLED `beatsin8(bpm, lowest, highest)` at timebase/phase 0. -/
def beatsin8 (bpm lo hi time : Nat) : Nat :=
  let beat := beat8v bpm time
  let bs := sin8 beat
  let rangewidth := (hi - lo) % 256
  let scaledbeat := scale8 bs rangewidth
  (lo + scaledbeat) % 256

/-! ### Remote message parsing (Arduino `String::toInt`, i.e. `atol`) -/

/-- Leading-whitespace skipping of `atol`. -/
def skipWs : List Char → List Char
  | c :: cs =>
      if c = ' ' ∨ c = '\t' ∨ c = '\n' ∨ c = '\u000b' ∨ c = '\u000c' ∨ c = '\r'
      then skipWs cs else c :: cs
  | [] => []

/-- Decimal digit accumulation of `atol`: stops at the first non-digit. -/
def digitsVal : List Char → Nat → Nat
  | c :: cs, acc =>
      if c.isDigit then digitsVal cs (acc * 10 + (c.toNat - 48)) else acc
  | [], acc => acc

/-- Model of Arduino `String::toInt` (`atol`): optional whitespace, optional
sign, then decimal digits; anything non-numeric (including the empty
string) parses to `0`. -/
def strToInt (m : List Char) : Int :=
  match skipWs m with
  | '-' :: rest => - ((digitsVal rest 0 : Nat) : Int)
  | '+' :: rest => ((digitsVal rest 0 : Nat) : Int)
  | rest => ((digitsVal rest 0 : Nat) : Int)

/-! ### Engine state -/

/-- Device state (`enum State {Inactive, Active}`). -/
inductive State where
  | Inactive
  | Active
deriving DecidableEq, Repr

/-- Count direction (`enum Mode {CountUp, CountDown}`). -/
inductive Mode where
  | CountUp
  | CountDown
deriving DecidableEq, Repr

/-- The global mutable state of the sketch: the Bluetooth message buffer,
`startTime`, `timerDuration`, `cumulativeElapsedTime`, `state`, `mode`, and
the `static long timeValue` of `loop()`. -/
structure Sys where
  message : List Char
  startTime : Nat
  timerDuration : Nat
  cumulativeElapsedTime : Nat
  state : State
  mode : Mode
  timeValue : Int
deriving DecidableEq, Repr

/-- Power-on state: C++ zero-initialises the globals, `setup()` sets
`state = Inactive`, and `timeValue` is statically initialised to `0`. -/
def initialSys : Sys :=
  ⟨[], 0, 0, 0, State.Inactive, Mode.CountUp, 0⟩

/-- One tick's worth of external input: the three debounced button edges,
at most one byte from the Bluetooth stream, and the `millis()` reading. -/
structure TickInput where
  btnStartPressed : Bool
  btnLeftPressed : Bool
  btnRightPressed : Bool
  serialByte : Option Char
  currentTime : Nat
deriving DecidableEq, Repr

/-- State-machine transitions performed during a tick, in the order the
source executes them.  `start`, `stop` and `reset` are the calls to the
functions of those names; `expire` is the in-line countdown-expiry
assignment `state = State::Inactive`. -/
inductive Transition where
  | start
  | stop
  | reset
  | expire
deriving DecidableEq, Repr

/-- Whether a transition is a Start or a Stop of the engine. -/
def isStartStop : Transition → Bool
  | Transition.start => true
  | Transition.stop => true
  | _ => false

/-- Result of the input-sampling and state-machine portion of a tick. -/
structure StepOut where
  sys : Sys
  timeHue : Int
  log : List Transition
deriving DecidableEq, Repr

/-! ### The transition functions `Start`, `Stop`, `Reset` -/

/-- Function `Start()`: activates the engine and records `millis()` as the
session start. -/
def Start (now : Nat) (s : Sys) : Sys :=
  { s with state := State.Active, startTime := now }

/-- Function `Stop()`: adds `millis() - startTime` (unsigned arithmetic) to
`cumulativeElapsedTime` and deactivates the engine. -/
def Stop (now : Nat) (s : Sys) : Sys :=
  { s with
    cumulativeElapsedTime := u32 (s.cumulativeElapsedTime + usub32 now s.startTime),
    state := State.Inactive }

/-- Function `Reset()`: zeroes `cumulativeElapsedTime` and deactivates the
engine. -/
def Reset (s : Sys) : Sys :=
  { s with cumulativeElapsedTime := 0, state := State.Inactive }

/-! ### The per-tick step -/

/-- Bluetooth receive step: at most one byte per tick; a newline clears the
message buffer, any other byte is appended. -/
def readSerial (b : Option Char) (msg : List Char) : List Char :=
  match b with
  | none => msg
  | some c => if c = '\n' then [] else msg ++ [c]

/-- The countdown display value:
`timerDuration - (currentTime - startTime) - cumulativeElapsedTime`,
computed in `unsigned long` arithmetic and assigned to the `long`
`timeValue`. -/
def countdownTV (s : Sys) (now : Nat) : Int :=
  toSigned32 (usub32 (usub32 s.timerDuration (usub32 now s.startTime)) s.cumulativeElapsedTime)

/-- The count-up display value:
`(currentTime - startTime) + cumulativeElapsedTime`, computed in
`unsigned long` arithmetic and assigned to the `long` `timeValue`. -/
def countUpTV (s : Sys) (now : Nat) : Int :=
  toSigned32 (u32 (usub32 now s.startTime + s.cumulativeElapsedTime))

/-- The toggle condition `btnStart.pressed() || message == "s"`, evaluated
on the message buffer as updated by this tick's Bluetooth read. -/
def toggleCond (inp : TickInput) (msg : List Char) : Bool :=
  inp.btnStartPressed || msg == ['s']

/-- Countdown-expiry check of the Active/CountDown branch: when the
computed `timeValue` is `≤ 0` it is clamped to `0` and the state set to
`Inactive` in-line; otherwise `timeValue` is stored as computed. -/
def expiryPhase (now : Nat) (s : Sys) : Sys :=
  if countdownTV s now ≤ 0 then { s with timeValue := 0, state := State.Inactive }
  else { s with timeValue := countdownTV s now }

/-- The `if(btnStart.pressed()||message == "s") { Stop(); }` statement of
the Active branch. -/
def applyStopToggle (cond : Bool) (now : Nat) (s : Sys) : Sys :=
  if cond then Stop now s else s

/-- The `state == State::Active` branch of `loop()`.  `msg` is the message
buffer after this tick's Bluetooth read; `s` already carries it. -/
def activeStep (inp : TickInput) (msg : List Char) (s : Sys) : StepOut :=
  match s.mode with
  | Mode.CountDown =>
    ⟨applyStopToggle (toggleCond inp msg) inp.currentTime (expiryPhase inp.currentTime s),
      mapArd (countdownTV s inp.currentTime) 0 (toSigned32 s.timerDuration) 0 100,
      (if countdownTV s inp.currentTime ≤ 0 then [Transition.expire] else []) ++
        (if toggleCond inp msg then [Transition.stop] else [])⟩
  | Mode.CountUp =>
    ⟨applyStopToggle (toggleCond inp msg) inp.currentTime
        { s with timeValue := countUpTV s inp.currentTime },
      0,
      if toggleCond inp msg then [Transition.stop] else []⟩

/-- The unconditional `timerDuration = 60000 * message.toInt();
timeValue = timerDuration; Reset();` statements run on every Inactive
tick. -/
def applyMessage (msg : List Char) (s : Sys) : Sys :=
  Reset { s with
    timerDuration := intToU32 (60000 * strToInt msg),
    timeValue := toSigned32 (intToU32 (60000 * strToInt msg)) }

/-- The Decrease (`btnLeft`) handler: subtract one minute when at least
one minute is configured, refresh `timeValue`, `Reset()`. -/
def applyLeft (pressed : Bool) (s : Sys) : Sys :=
  if pressed then
    Reset { s with
      timerDuration :=
        if 60000 ≤ s.timerDuration then s.timerDuration - 60000 else s.timerDuration,
      timeValue := toSigned32
        (if 60000 ≤ s.timerDuration then s.timerDuration - 60000 else s.timerDuration) }
  else s

/-- The Increase (`btnRight`) handler: add one minute (`unsigned long`
addition), refresh `timeValue`, `Reset()`. -/
def applyRight (pressed : Bool) (s : Sys) : Sys :=
  if pressed then
    Reset { s with
      timerDuration := u32 (s.timerDuration + 60000),
      timeValue := toSigned32 (u32 (s.timerDuration + 60000)) }
  else s

/-- The Start toggle of the Inactive branch: choose the mode from the
current `timerDuration` (CountUp exactly when it is `0`) and `Start()`. -/
def applyStartToggle (cond : Bool) (now : Nat) (s : Sys) : Sys :=
  if cond then
    Start now { s with
      mode := if s.timerDuration = 0 then Mode.CountUp else Mode.CountDown }
  else s

/-- State effect of one Inactive tick: message reapplication and `Reset()`,
then Decrease, then Increase, then the Start toggle, in source order. -/
def inactiveSys (inp : TickInput) (msg : List Char) (s : Sys) : Sys :=
  applyStartToggle (toggleCond inp msg) inp.currentTime
    (applyRight inp.btnRightPressed
      (applyLeft inp.btnLeftPressed
        (applyMessage msg s)))

/-- Transitions performed by one Inactive tick, in execution order. -/
def inactiveLog (inp : TickInput) (msg : List Char) : List Transition :=
  ([Transition.reset] ++
    (if inp.btnLeftPressed then [Transition.reset] else []) ++
    (if inp.btnRightPressed then [Transition.reset] else [])) ++
  (if toggleCond inp msg then [Transition.start] else [])

/-- The `state == State::Inactive` branch of `loop()`: idle hue cycling,
the unconditional reapplication of the buffered remote duration followed
by `Reset()`, the Decrease/Increase button handling, and the Start
toggle. -/
def inactiveStep (inp : TickInput) (msg : List Char) (s : Sys) : StepOut :=
  ⟨inactiveSys inp msg s,
    ((beatsin8 20 0 40 inp.currentTime : Nat) : Int),
    inactiveLog inp msg⟩

/-- Input sampling followed by the state-machine branch of `loop()`. -/
def advance (inp : TickInput) (s0 : Sys) : StepOut :=
  let msg := readSerial inp.serialByte s0.message
  let s := { s0 with message := msg }
  match s0.state with
  | State.Active => activeStep inp msg s
  | State.Inactive => inactiveStep inp msg s

/-! ### Rendering (the `DISPLAY_MMSS` branch) -/

/-- The four `setDigit` calls of the MM:SS rendering: pairs of
(display slot, digit value), in source order.  `seconds` and `minutes` use
C truncating division and remainder on `long`. -/
def renderCalls (tv : Int) : List (Nat × Int) :=
  let seconds := cmod (cdiv tv 1000) 60
  let minutes := cdiv tv 60000
  [(3, cmod seconds 10),
   (2, cmod (cdiv seconds 10) 10),
   (1, cmod minutes 10),
   (0, cmod (cdiv minutes 10) 10)]

/-- All LED writes of one tick's rendering: each `setDigit` call writes its
30 cells with colour `CHSV(timeHue, 255, 255)`. -/
def renderWrites (tv hue : Int) : List (Nat × CHSV) :=
  (renderCalls tv).flatMap fun p => setDigitWrites p.1 p.2 ⟨intToU8 hue, 255, 255⟩

/-- The complete observable effect of one `loop()` iteration. -/
structure TickResult where
  sys : Sys
  timeHue : Int
  log : List Transition
  ledWrites : List (Nat × CHSV)
deriving DecidableEq, Repr

/-- One full tick: sample input, advance the state machine, render. -/
def tick (inp : TickInput) (s : Sys) : TickResult :=
  let o := advance inp s
  ⟨o.sys, o.timeHue, o.log, renderWrites o.sys.timeValue o.timeHue⟩

/-- Iterated ticks over a list of per-tick inputs. -/
def runTicks (l : List TickInput) (s : Sys) : Sys :=
  l.foldl (fun s i => (tick i s).sys) s

/-- States reachable from power-on under arbitrary inputs. -/
inductive Reachable : Sys → Prop where
  | init : Reachable initialSys
  | step : ∀ (inp : TickInput) (s : Sys), Reachable s → Reachable (tick inp s).sys

/-! ### Helper lemmas -/

theorem intToU32_lt (i : Int) : intToU32 i < 4294967296 := by
  unfold intToU32; omega

theorem u32_lt (n : Nat) : u32 n < 4294967296 := by
  unfold u32; omega

theorem tick_sys (inp : TickInput) (s : Sys) : (tick inp s).sys = (advance inp s).sys := rfl

theorem tick_log (inp : TickInput) (s : Sys) : (tick inp s).log = (advance inp s).log := rfl

theorem tick_sys_active (inp : TickInput) (msg : List Char) (st dur cum : Nat)
    (mode : Mode) (tv : Int) :
    (tick inp ⟨msg, st, dur, cum, State.Active, mode, tv⟩).sys
      = (activeStep inp (readSerial inp.serialByte msg)
          ⟨readSerial inp.serialByte msg, st, dur, cum, State.Active, mode, tv⟩).sys := rfl

theorem tick_sys_inactive (inp : TickInput) (msg : List Char) (st dur cum : Nat)
    (mode : Mode) (tv : Int) :
    (tick inp ⟨msg, st, dur, cum, State.Inactive, mode, tv⟩).sys
      = inactiveSys inp (readSerial inp.serialByte msg)
          ⟨readSerial inp.serialByte msg, st, dur, cum, State.Inactive, mode, tv⟩ := rfl

theorem applyMessage_cum (msg : List Char) (s : Sys) :
    (applyMessage msg s).cumulativeElapsedTime = 0 := rfl

theorem applyLeft_cum (p : Bool) (s : Sys) (h : s.cumulativeElapsedTime = 0) :
    (applyLeft p s).cumulativeElapsedTime = 0 := by
  cases p <;> simp [applyLeft, Reset, h]

theorem applyRight_cum (p : Bool) (s : Sys) (h : s.cumulativeElapsedTime = 0) :
    (applyRight p s).cumulativeElapsedTime = 0 := by
  cases p <;> simp [applyRight, Reset, h]

theorem applyStartToggle_cum (c : Bool) (now : Nat) (s : Sys) :
    (applyStartToggle c now s).cumulativeElapsedTime = s.cumulativeElapsedTime := by
  cases c <;> simp [applyStartToggle, Start]

theorem inactiveStep_cum (inp : TickInput) (msg : List Char) (s : Sys) :
    (inactiveStep inp msg s).sys.cumulativeElapsedTime = 0 := by
  show (inactiveSys inp msg s).cumulativeElapsedTime = 0
  rw [inactiveSys, applyStartToggle_cum]
  exact applyRight_cum _ _ (applyLeft_cum _ _ (applyMessage_cum _ _))

/-- Exact value of the countdown display expression when the session state
is within the non-wrapping operational range assumed by the design (§5 of
the spec: monotonic clock, no 32-bit wraparound during a session). -/
theorem countdownTV_eq (s : Sys) (now : Nat) (h1 : s.startTime ≤ now)
    (h2 : now - s.startTime + s.cumulativeElapsedTime < 2147483648)
    (h3 : s.timerDuration < 2147483648) :
    countdownTV s now =
      (s.timerDuration : Int) - ((now : Int) - (s.startTime : Int)) -
        (s.cumulativeElapsedTime : Int) := by
  unfold countdownTV toSigned32 usub32
  split <;> omega

/-- The countdown display expression ignores the message buffer. -/
theorem countdownTV_message (m : List Char) (s : Sys) (now : Nat) :
    countdownTV { s with message := m } now = countdownTV s now := rfl

/-! ### C1 -/

/-- Counterexample to C1.  Scenario A of the spec: Duration 0, Toggle at
t=0 (Start, CountUp), Toggle at t=1500 (Stop; CumulativeElapsed is then
1500), Toggle at t=1520 (Start) with no explicit Reset event in between.
The claim says CumulativeElapsed carries forward (still 1500 at the
restart) and the displayed value at t=1540 continues from ~1520.  The code
instead runs the idle housekeeping `Reset()` on the tick that restarts the
timer, so CumulativeElapsed is 0 at the Start and the displayed value at
t=1540 is 20, not 1520. -/
theorem stop_start_carry_forward_cex :
    (runTicks [⟨true, false, false, none, 0⟩, ⟨true, false, false, none, 1500⟩]
      initialSys).cumulativeElapsedTime = 1500 ∧
    (runTicks [⟨true, false, false, none, 0⟩, ⟨true, false, false, none, 1500⟩,
      ⟨true, false, false, none, 1520⟩] initialSys).cumulativeElapsedTime = 0 ∧
    (runTicks [⟨true, false, false, none, 0⟩, ⟨true, false, false, none, 1500⟩,
      ⟨true, false, false, none, 1520⟩, ⟨false, false, false, none, 1540⟩]
      initialSys).timeValue = 20 ∧
    ¬ (runTicks [⟨true, false, false, none, 0⟩, ⟨true, false, false, none, 1500⟩,
      ⟨true, false, false, none, 1520⟩, ⟨false, false, false, none, 1540⟩]
      initialSys).timeValue = 1520 := by
  exact ⟨by decide, by decide, by decide, by decide⟩

/-- C1 (amended): CumulativeElapsed does not carry forward across a
Stop/Start gap.  Every tick processed while the engine is Inactive ends
with CumulativeElapsed = 0, because the idle branch re-applies `Reset()`
unconditionally; since a Start after a Stop always happens on a later,
Inactive tick, every Start begins with CumulativeElapsed = 0 and a
restarted count-up resumes from the new session's elapsed time alone. -/
theorem idle_tick_zeroes_cumulative (inp : TickInput) (s : Sys)
    (h : s.state = State.Inactive) :
    (tick inp s).sys.cumulativeElapsedTime = 0 := by
  rcases s with ⟨msg, st, dur, cum, state, mode, tv⟩
  dsimp only at h
  subst h
  exact inactiveStep_cum inp _ _

/-- Witness for `idle_tick_zeroes_cumulative` at a concrete Inactive state
with nonzero CumulativeElapsed. -/
theorem idle_tick_zeroes_cumulative_witness :
    (tick ⟨false, false, false, none, 37⟩
      ⟨[], 0, 0, 5, State.Inactive, Mode.CountUp, 0⟩).sys.cumulativeElapsedTime = 0 :=
  idle_tick_zeroes_cumulative ⟨false, false, false, none, 37⟩
    ⟨[], 0, 0, 5, State.Inactive, Mode.CountUp, 0⟩ rfl

/-! ### C3 -/

/-- Counterexample to C3.  Starting Inactive with Duration 0 and an empty
message buffer, three Increase presses on separate ticks leave Duration at
60000 (not 180000), because each idle tick first re-applies
`timerDuration = 60000 * message.toInt()` with an empty buffer, zeroing
Duration before the press is handled; a subsequent Decrease press leaves
Duration at 0 (not 120000). -/
theorem increase_thrice_cex :
    (runTicks [⟨false, false, true, none, 0⟩, ⟨false, false, true, none, 20⟩,
      ⟨false, false, true, none, 40⟩] initialSys).timerDuration = 60000 ∧
    ¬ (runTicks [⟨false, false, true, none, 0⟩, ⟨false, false, true, none, 20⟩,
      ⟨false, false, true, none, 40⟩] initialSys).timerDuration = 180000 ∧
    (runTicks [⟨false, false, true, none, 0⟩, ⟨false, false, true, none, 20⟩,
      ⟨false, false, true, none, 40⟩, ⟨false, true, false, none, 60⟩]
      initialSys).timerDuration = 0 ∧
    ¬ (runTicks [⟨false, false, true, none, 0⟩, ⟨false, false, true, none, 20⟩,
      ⟨false, false, true, none, 40⟩, ⟨false, true, false, none, 60⟩]
      initialSys).timerDuration = 120000 := by
  exact ⟨by decide, by decide, by decide, by decide⟩

/-- C3 (amended): with an empty remote message buffer, every idle tick
first resets Duration to 0, so an Increase press leaves Duration at
exactly 60000 at the end of its tick regardless of earlier presses, and a
Decrease press leaves Duration at 0.  Every such adjustment tick leaves
CumulativeElapsed at 0. -/
theorem idle_adjust_duration (s : Sys) (t u : Nat)
    (hI : s.state = State.Inactive) (hm : s.message = []) :
    (tick ⟨false, false, true, none, t⟩ s).sys.timerDuration = 60000 ∧
    (tick ⟨false, false, true, none, t⟩ s).sys.cumulativeElapsedTime = 0 ∧
    (tick ⟨false, true, false, none, u⟩ s).sys.timerDuration = 0 ∧
    (tick ⟨false, true, false, none, u⟩ s).sys.cumulativeElapsedTime = 0 := by
  have h0 : intToU32 (60000 * strToInt []) = 0 := by decide
  rcases s with ⟨msg, st, dur, cum, state, mode, tv⟩
  dsimp only at hI hm
  subst hI
  subst hm
  refine ⟨?_, inactiveStep_cum _ _ _, ?_, inactiveStep_cum _ _ _⟩ <;>
  · show (inactiveSys _ [] ⟨[], st, dur, cum, State.Inactive, mode, tv⟩).timerDuration = _
    simp [inactiveSys, toggleCond, applyMessage, applyLeft, applyRight, applyStartToggle,
      Reset, Start, h0, u32]

/-- Witness for `idle_adjust_duration` at a concrete Inactive state. -/
theorem idle_adjust_duration_witness :
    (tick ⟨false, false, true, none, 3⟩
      ⟨[], 0, 7, 5, State.Inactive, Mode.CountUp, 0⟩).sys.timerDuration = 60000 ∧
    (tick ⟨false, false, true, none, 3⟩
      ⟨[], 0, 7, 5, State.Inactive, Mode.CountUp, 0⟩).sys.cumulativeElapsedTime = 0 ∧
    (tick ⟨false, true, false, none, 4⟩
      ⟨[], 0, 7, 5, State.Inactive, Mode.CountUp, 0⟩).sys.timerDuration = 0 ∧
    (tick ⟨false, true, false, none, 4⟩
      ⟨[], 0, 7, 5, State.Inactive, Mode.CountUp, 0⟩).sys.cumulativeElapsedTime = 0 :=
  idle_adjust_duration ⟨[], 0, 7, 5, State.Inactive, Mode.CountUp, 0⟩ 3 4 rfl rfl

/-! ### C2 -/

/-- Counterexample to C2.  The digit '2' arrives at t=0 (Duration becomes
120000 on that tick), but processing the newline of the complete message
at t=20 clears the buffer, and the same Inactive tick re-applies
`timerDuration = 60000 * message.toInt()` on the now-empty buffer, so
after the complete message has been received Duration is 0, and a
subsequent Toggle at t=40 starts a CountUp session, not a CountDown. -/
theorem message_newline_cex :
    (runTicks [⟨false, false, false, some '2', 0⟩] initialSys).timerDuration = 120000 ∧
    (runTicks [⟨false, false, false, some '2', 0⟩, ⟨false, false, false, some '\n', 20⟩]
      initialSys).timerDuration = 0 ∧
    ¬ (runTicks [⟨false, false, false, some '2', 0⟩, ⟨false, false, false, some '\n', 20⟩]
      initialSys).timerDuration = 120000 ∧
    (runTicks [⟨false, false, false, some '2', 0⟩, ⟨false, false, false, some '\n', 20⟩,
      ⟨true, false, false, none, 40⟩] initialSys).mode = Mode.CountUp ∧
    ¬ (runTicks [⟨false, false, false, some '2', 0⟩, ⟨false, false, false, some '\n', 20⟩,
      ⟨true, false, false, none, 40⟩] initialSys).mode = Mode.CountDown := by
  exact ⟨by decide, by decide, by decide, by decide, by decide⟩

/-- C2 (amended): the remote duration is effective only while the digit is
still buffered, i.e. before the newline delimiter is processed.  From any
Inactive state whose buffer holds "2", a Toggle tick sets Duration to
120000 and starts a CountDown session with DisplayedValue 120000, and on a
later tick (d ms later, 0 < d < 120000) the displayed value has decreased
to 120000 − d.  Once the newline is processed the buffer empties and the
next idle tick resets Duration to 0 (see the counterexample). -/
theorem buffered_digit_countdown (s : Sys) (t d : Nat)
    (hI : s.state = State.Inactive) (hm : s.message = ['2'])
    (h0 : 0 < d) (hd : d < 120000) :
    (tick ⟨true, false, false, none, t⟩ s).sys.state = State.Active ∧
    (tick ⟨true, false, false, none, t⟩ s).sys.mode = Mode.CountDown ∧
    (tick ⟨true, false, false, none, t⟩ s).sys.timerDuration = 120000 ∧
    (tick ⟨true, false, false, none, t⟩ s).sys.timeValue = 120000 ∧
    (tick ⟨false, false, false, none, t + d⟩
      (tick ⟨true, false, false, none, t⟩ s).sys).sys.timeValue = 120000 - (d : Int) ∧
    (tick ⟨false, false, false, none, t + d⟩
      (tick ⟨true, false, false, none, t⟩ s).sys).sys.timeValue < 120000 ∧
    (tick ⟨false, false, false, none, t + d⟩
      (tick ⟨true, false, false, none, t⟩ s).sys).sys.state = State.Active := by
  rcases s with ⟨msg, st, dur, cum, state, mode, tv⟩
  dsimp only at hI hm
  subst hI
  subst hm
  have h2 : intToU32 (60000 * strToInt ['2']) = 120000 := by decide
  have h3 : toSigned32 120000 = 120000 := by decide
  have e1 : (tick ⟨true, false, false, none, t⟩
      ⟨['2'], st, dur, cum, State.Inactive, mode, tv⟩).sys
      = ⟨['2'], t, 120000, 0, State.Active, Mode.CountDown, 120000⟩ := by
    have e1' : inactiveSys ⟨true, false, false, none, t⟩ ['2']
        ⟨['2'], st, dur, cum, State.Inactive, mode, tv⟩
        = ⟨['2'], t, 120000, 0, State.Active, Mode.CountDown, 120000⟩ := by
      simp [inactiveSys, toggleCond, applyMessage, applyLeft, applyRight, applyStartToggle,
        Reset, Start, h2, h3]
    exact e1'
  have e2 : countdownTV ⟨['2'], t, 120000, 0, State.Active, Mode.CountDown, (120000 : Int)⟩
      (t + d) = 120000 - (d : Int) := by
    rw [countdownTV_eq ⟨['2'], t, 120000, 0, State.Active, Mode.CountDown, (120000 : Int)⟩
      (t + d) (show t ≤ t + d by omega) (show t + d - t + 0 < 2147483648 by omega)
      (show (120000 : Nat) < 2147483648 by omega)]
    dsimp only
    push_cast
    ring
  have hpos : ¬ (countdownTV ⟨['2'], t, 120000, 0, State.Active, Mode.CountDown, (120000 : Int)⟩
      (t + d) ≤ 0) := by
    rw [e2]; omega
  have e3 : (tick ⟨false, false, false, none, t + d⟩
      ⟨['2'], t, 120000, 0, State.Active, Mode.CountDown, 120000⟩).sys
      = ⟨['2'], t, 120000, 0, State.Active, Mode.CountDown, 120000 - (d : Int)⟩ := by
    rw [tick_sys_active]
    simp only [readSerial]
    simp [activeStep, applyStopToggle, toggleCond, expiryPhase, hpos, e2]
    try omega
  rw [e1, e3]
  refine ⟨rfl, rfl, rfl, rfl, rfl, ?_, rfl⟩
  show (120000 : Int) - (d : Int) < 120000
  omega

/-- Witness for `buffered_digit_countdown` with the digit buffered at
t = 0 and the second look 20 ms later. -/
theorem buffered_digit_countdown_witness :
    (tick ⟨true, false, false, none, 0⟩
      ⟨['2'], 0, 0, 0, State.Inactive, Mode.CountUp, 0⟩).sys.state = State.Active ∧
    (tick ⟨true, false, false, none, 0⟩
      ⟨['2'], 0, 0, 0, State.Inactive, Mode.CountUp, 0⟩).sys.mode = Mode.CountDown ∧
    (tick ⟨true, false, false, none, 0⟩
      ⟨['2'], 0, 0, 0, State.Inactive, Mode.CountUp, 0⟩).sys.timerDuration = 120000 ∧
    (tick ⟨true, false, false, none, 0⟩
      ⟨['2'], 0, 0, 0, State.Inactive, Mode.CountUp, 0⟩).sys.timeValue = 120000 ∧
    (tick ⟨false, false, false, none, 20⟩
      (tick ⟨true, false, false, none, 0⟩
        ⟨['2'], 0, 0, 0, State.Inactive, Mode.CountUp, 0⟩).sys).sys.timeValue
      = 120000 - ((20 : Nat) : Int) ∧
    (tick ⟨false, false, false, none, 20⟩
      (tick ⟨true, false, false, none, 0⟩
        ⟨['2'], 0, 0, 0, State.Inactive, Mode.CountUp, 0⟩).sys).sys.timeValue < 120000 ∧
    (tick ⟨false, false, false, none, 20⟩
      (tick ⟨true, false, false, none, 0⟩
        ⟨['2'], 0, 0, 0, State.Inactive, Mode.CountUp, 0⟩).sys).sys.state = State.Active :=
  buffered_digit_countdown ⟨['2'], 0, 0, 0, State.Inactive, Mode.CountUp, 0⟩ 0 20
    rfl rfl (by decide) (by decide)

/-! ### C5 -/

/-- Counterexample to C5.  A 1-minute countdown is configured at t=0 and
started at t=20; at t=60020 it expires.  The claim says expiry behaves
exactly like `Stop()`, adding now − SessionStart = 60000 to
CumulativeElapsed; the code's expiry path only sets the state to Inactive
and leaves CumulativeElapsed untouched at 0. -/
theorem expiry_no_stop_cex :
    (runTicks [⟨false, false, false, some '1', 0⟩, ⟨true, false, false, none, 20⟩,
      ⟨false, false, false, none, 60020⟩] initialSys).state = State.Inactive ∧
    (runTicks [⟨false, false, false, some '1', 0⟩, ⟨true, false, false, none, 20⟩,
      ⟨false, false, false, none, 60020⟩] initialSys).cumulativeElapsedTime = 0 ∧
    ¬ (runTicks [⟨false, false, false, some '1', 0⟩, ⟨true, false, false, none, 20⟩,
      ⟨false, false, false, none, 60020⟩] initialSys).cumulativeElapsedTime = 60000 := by
  exact ⟨by decide, by decide, by decide⟩

/-- C5 (amended): when a countdown expires on a tick without a toggle
event, the engine merely clamps the displayed value to 0 and sets the
state to Inactive; CumulativeElapsed is left unchanged (it is only
`Stop()` — triggered by a toggle — that adds now − SessionStart, and the
housekeeping `Reset()` of the next idle tick zeroes the accumulator
anyway). -/
theorem expiry_preserves_cumulative (inp : TickInput) (s : Sys)
    (hA : s.state = State.Active) (hM : s.mode = Mode.CountDown)
    (htv : countdownTV s inp.currentTime ≤ 0)
    (hb : inp.btnStartPressed = false)
    (hmsg : ¬ (readSerial inp.serialByte s.message = ['s'])) :
    (tick inp s).sys.state = State.Inactive ∧
    (tick inp s).sys.cumulativeElapsedTime = s.cumulativeElapsedTime ∧
    (tick inp s).sys.timeValue = 0 := by
  rcases s with ⟨msg, st, dur, cum, state, mode, tv⟩
  dsimp only at hA hM htv hmsg ⊢
  subst hA
  subst hM
  have hc : toggleCond inp (readSerial inp.serialByte msg) = false := by
    simp [toggleCond, hb, beq_eq_false_iff_ne.mpr hmsg]
  have htv' : countdownTV ⟨readSerial inp.serialByte msg, st, dur, cum, State.Active,
      Mode.CountDown, tv⟩ inp.currentTime ≤ 0 := htv
  have e : (tick inp ⟨msg, st, dur, cum, State.Active, Mode.CountDown, tv⟩).sys
      = ⟨readSerial inp.serialByte msg, st, dur, cum, State.Inactive, Mode.CountDown, 0⟩ := by
    rw [tick_sys_active]
    simp [activeStep, applyStopToggle, expiryPhase, hc, htv']
  rw [e]
  exact ⟨rfl, rfl, rfl⟩

/-- Witness for `expiry_preserves_cumulative`: an expiring countdown with
CumulativeElapsed 7 keeps it at 7 instead of adding the session length. -/
theorem expiry_preserves_cumulative_witness :
    (tick ⟨false, false, false, none, 60020⟩
      ⟨['1'], 20, 60000, 7, State.Active, Mode.CountDown, 123⟩).sys.state = State.Inactive ∧
    (tick ⟨false, false, false, none, 60020⟩
      ⟨['1'], 20, 60000, 7, State.Active, Mode.CountDown, 123⟩).sys.cumulativeElapsedTime = 7 ∧
    (tick ⟨false, false, false, none, 60020⟩
      ⟨['1'], 20, 60000, 7, State.Active, Mode.CountDown, 123⟩).sys.timeValue = 0 :=
  expiry_preserves_cumulative ⟨false, false, false, none, 60020⟩
    ⟨['1'], 20, 60000, 7, State.Active, Mode.CountDown, 123⟩
    rfl rfl (by decide) rfl (by decide)

/-! ### More helper lemmas: field preservation of the step functions -/

theorem applyStopToggle_dur (c : Bool) (now : Nat) (s : Sys) :
    (applyStopToggle c now s).timerDuration = s.timerDuration := by
  cases c <;> simp [applyStopToggle, Stop]

theorem applyStopToggle_mode (c : Bool) (now : Nat) (s : Sys) :
    (applyStopToggle c now s).mode = s.mode := by
  cases c <;> simp [applyStopToggle, Stop]

theorem expiryPhase_dur (now : Nat) (s : Sys) :
    (expiryPhase now s).timerDuration = s.timerDuration := by
  unfold expiryPhase; split <;> rfl

theorem expiryPhase_mode (now : Nat) (s : Sys) :
    (expiryPhase now s).mode = s.mode := by
  unfold expiryPhase; split <;> rfl

theorem activeStep_dur (inp : TickInput) (msg : List Char) (s : Sys) :
    (activeStep inp msg s).sys.timerDuration = s.timerDuration := by
  cases hm : s.mode <;>
    simp [activeStep, hm, applyStopToggle_dur, expiryPhase_dur]

theorem activeStep_mode (inp : TickInput) (msg : List Char) (s : Sys) :
    (activeStep inp msg s).sys.mode = s.mode := by
  cases hm : s.mode <;>
    simp [activeStep, hm, applyStopToggle_mode, expiryPhase_mode]

theorem applyStartToggle_dur (c : Bool) (now : Nat) (s : Sys) :
    (applyStartToggle c now s).timerDuration = s.timerDuration := by
  cases c <;> simp [applyStartToggle, Start]

theorem applyMessage_state (msg : List Char) (s : Sys) :
    (applyMessage msg s).state = State.Inactive := rfl

theorem applyLeft_state (p : Bool) (s : Sys) (h : s.state = State.Inactive) :
    (applyLeft p s).state = State.Inactive := by
  cases p <;> simp [applyLeft, Reset, h]

theorem applyRight_state (p : Bool) (s : Sys) (h : s.state = State.Inactive) :
    (applyRight p s).state = State.Inactive := by
  cases p <;> simp [applyRight, Reset, h]

theorem applyLeft_dur_le (p : Bool) (s : Sys) :
    (applyLeft p s).timerDuration ≤ s.timerDuration := by
  cases p <;> simp [applyLeft, Reset] <;> split <;> omega

theorem applyRight_dur_lt (p : Bool) (s : Sys) (h : s.timerDuration < 4294967296) :
    (applyRight p s).timerDuration < 4294967296 := by
  cases p <;> simp [applyRight, Reset, h, u32_lt]

theorem applyMessage_dur_lt (msg : List Char) (s : Sys) :
    (applyMessage msg s).timerDuration < 4294967296 := intToU32_lt _

theorem applyStartToggle_false (now : Nat) (s : Sys) :
    applyStartToggle false now s = s := by
  simp [applyStartToggle]

theorem applyStartToggle_true (now : Nat) (s : Sys) :
    applyStartToggle true now s
      = Start now { s with
          mode := if s.timerDuration = 0 then Mode.CountUp else Mode.CountDown } := by
  simp [applyStartToggle]

/-! ### C4 -/

/-- C4: while Active in CountDown mode, the tick computes
DisplayedValue = Duration − (now − SessionStart) − CumulativeElapsed,
clamps it to 0 when it is ≤ 0 and then switches to Inactive within the
same tick, so the stored display value is never negative.  The bounds
hypotheses say the session is inside the non-wrapping operational range
of the 32-bit clock (elapsed time below 2^31 ms ≈ 24.8 days), which §5 of
the spec assumes. -/
theorem countdown_clamped_nonneg (inp : TickInput) (s : Sys)
    (hA : s.state = State.Active) (hM : s.mode = Mode.CountDown)
    (h1 : s.startTime ≤ inp.currentTime)
    (h2 : inp.currentTime - s.startTime + s.cumulativeElapsedTime < 2147483648)
    (h3 : s.timerDuration < 2147483648) :
    (tick inp s).sys.timeValue
      = max 0 ((s.timerDuration : Int) - ((inp.currentTime : Int) - (s.startTime : Int))
          - (s.cumulativeElapsedTime : Int)) ∧
    0 ≤ (tick inp s).sys.timeValue ∧
    ((s.timerDuration : Int) - ((inp.currentTime : Int) - (s.startTime : Int))
        - (s.cumulativeElapsedTime : Int) ≤ 0 →
      (tick inp s).sys.state = State.Inactive) := by
  rcases s with ⟨msg, st, dur, cum, state, mode, tv⟩
  dsimp only at hA hM h1 h2 h3 ⊢
  subst hA
  subst hM
  rw [tick_sys_active]
  have hq : countdownTV ⟨readSerial inp.serialByte msg, st, dur, cum, State.Active,
      Mode.CountDown, tv⟩ inp.currentTime
      = (dur : Int) - ((inp.currentTime : Int) - (st : Int)) - (cum : Int) :=
    countdownTV_eq _ _ h1 h2 h3
  by_cases hle : (dur : Int) - ((inp.currentTime : Int) - (st : Int)) - (cum : Int) ≤ 0 <;>
    cases hc : toggleCond inp (readSerial inp.serialByte msg) <;>
      simp [activeStep, expiryPhase, applyStopToggle, Stop, hq, hle, hc] <;> omega

/-- Witness for `countdown_clamped_nonneg`: an over-run countdown
(mathematical remaining time −100 ms) displays 0 and goes Inactive. -/
theorem countdown_clamped_nonneg_witness :
    (tick ⟨false, false, false, none, 59200⟩
      ⟨[], 100, 60000, 1000, State.Active, Mode.CountDown, 0⟩).sys.timeValue = 0 ∧
    (tick ⟨false, false, false, none, 59200⟩
      ⟨[], 100, 60000, 1000, State.Active, Mode.CountDown, 0⟩).sys.state
      = State.Inactive := by
  have h := countdown_clamped_nonneg ⟨false, false, false, none, 59200⟩
    ⟨[], 100, 60000, 1000, State.Active, Mode.CountDown, 0⟩
    rfl rfl (by decide) (by decide) (by decide)
  refine ⟨?_, h.2.2 (by decide)⟩
  rw [h.1]
  decide

/-! ### C6 -/

/-- Counterexample to C6.  The remote message "-1" (bytes '-' then '1')
parses to −1; the Inactive tick computes
`timerDuration = (unsigned long)(60000 * -1) = 2^32 − 60000 = 4294907296`,
which is not a multiple of 60000 (remainder 47296). -/
theorem negative_message_duration_cex :
    (runTicks [⟨false, false, false, some '-', 0⟩, ⟨false, false, false, some '1', 20⟩]
      initialSys).timerDuration = 4294907296 ∧
    (runTicks [⟨false, false, false, some '-', 0⟩, ⟨false, false, false, some '1', 20⟩]
      initialSys).timerDuration % 60000 = 47296 ∧
    ¬ (60000 ∣ (runTicks [⟨false, false, false, some '-', 0⟩,
      ⟨false, false, false, some '1', 20⟩] initialSys).timerDuration) := by
  refine ⟨by decide, by decide, ?_⟩
  intro hdvd
  have h : (runTicks [⟨false, false, false, some '-', 0⟩, ⟨false, false, false, some '1', 20⟩]
      initialSys).timerDuration % 60000 = 47296 := by decide
  omega

/-- Buffers whose parsed value keeps the duration computation inside the
32-bit range and non-negative: the parse is ≥ 0 and even one further
one-minute increase stays below 2^32. -/
def goodMsg (m : List Char) : Prop :=
  0 ≤ strToInt m ∧ 60000 * (strToInt m + 1) < 4294967296

/-- States reachable from power-on when every remote message that is ever
applied while Inactive satisfies `goodMsg`. -/
inductive ReachableNN : Sys → Prop where
  | init : ReachableNN initialSys
  | step : ∀ (inp : TickInput) (s : Sys), ReachableNN s →
      (s.state = State.Inactive → goodMsg (readSerial inp.serialByte s.message)) →
      ReachableNN (tick inp s).sys

theorem inactiveSys_dur_dvd (inp : TickInput) (msg : List Char) (s0 : Sys)
    (hg : goodMsg msg) :
    60000 ∣ (inactiveSys inp msg s0).timerDuration := by
  obtain ⟨hv, hb⟩ := hg
  rw [inactiveSys, applyStartToggle_dur]
  obtain ⟨k, hdm, hkb⟩ : ∃ k, intToU32 (60000 * strToInt msg) = 60000 * k ∧
      60000 * k + 60000 < 4294967296 :=
    ⟨(strToInt msg).toNat, by unfold intToU32; omega, by omega⟩
  clear hv hb
  cases hpl : inp.btnLeftPressed
  · cases hpr : inp.btnRightPressed
    · simp [applyRight, applyLeft, applyMessage, Reset, hpl, hpr, hdm]
    · simp [applyRight, applyLeft, applyMessage, Reset, hpl, hpr, hdm, u32,
        Nat.mod_eq_of_lt hkb]
  · cases hpr : inp.btnRightPressed
    · simp [applyRight, applyLeft, applyMessage, Reset, hpl, hpr, hdm]
      split_ifs with h
      · exact Nat.dvd_sub' (Nat.dvd_mul_right 60000 k) (dvd_refl 60000)
      · exact Nat.dvd_mul_right 60000 k
    · simp [applyRight, applyLeft, applyMessage, Reset, hpl, hpr, hdm, u32]
      split_ifs with h
      · have e : 60000 * k - 60000 + 60000 = 60000 * k := by omega
        rw [e, Nat.mod_eq_of_lt (by omega)]
        exact Nat.dvd_mul_right 60000 k
      · rw [Nat.mod_eq_of_lt hkb]
        exact Nat.dvd_add (Nat.dvd_mul_right 60000 k) (dvd_refl 60000)

/-- C6 (amended): Duration is a non-negative multiple of 60000 in every
state reachable under remote messages that parse to a non-negative value
small enough not to overflow (0 ≤ v and 60000·(v+1) < 2^32).  The claim
as stated, which includes negative parses, fails: see the
counterexample, where "-1" makes Duration 2^32 − 60000, not a multiple of
60000. -/
theorem duration_multiple_of_minute (s : Sys) (h : ReachableNN s) :
    60000 ∣ s.timerDuration := by
  induction h with
  | init => decide
  | step inp s hs hg ih =>
    rcases s with ⟨msg, st, dur, cum, state, mode, tv⟩
    cases state with
    | Active =>
      rw [tick_sys_active, activeStep_dur]
      exact ih
    | Inactive =>
      rw [tick_sys_inactive]
      exact inactiveSys_dur_dvd _ _ _ (hg rfl)

/-- Witness for `duration_multiple_of_minute`: one step after receiving
the digit '1'. -/
theorem duration_multiple_of_minute_witness :
    60000 ∣ (tick ⟨false, false, false, some '1', 0⟩ initialSys).sys.timerDuration :=
  duration_multiple_of_minute _
    (ReachableNN.step ⟨false, false, false, some '1', 0⟩ initialSys ReachableNN.init
      (fun _ => ⟨by decide, by decide⟩))

/-! ### C7 -/

theorem bitRead_eq (x i : Nat) : bitRead x i = if x.testBit i then 1 else 0 := by
  rcases Nat.mod_two_eq_zero_or_one (x / 2 ^ i) with h | h <;>
    simp [bitRead, Nat.shiftRight_eq_div_pow, Nat.and_one_is_mod, Nat.testBit_to_div_mod, h]

/-- C7: for digit value v in 0–9, slot index d in 0–3 and any base colour,
`setDigit` writes cell i of slot d's block (strip index 30·d + i) with the
base colour's hue and saturation unchanged and brightness 255 exactly when
bit i of the fixed mask `digits[v]` is set, 0 otherwise. -/
theorem setDigit_cell_spec (display val i : Nat) (c : CHSV)
    (hd : display ≤ 3) (hv : val ≤ 9) (hi : i < 30) :
    (setDigitWrites display (val : Int) c)[i]? =
      some (display * 30 + i,
        ⟨c.h, c.s, if (digits.getD val 0).testBit i then 255 else 0⟩) := by
  unfold setDigitWrites NUM_LEDS_PER_DIGIT
  rw [List.getElem?_map, List.getElem?_range hi]
  simp [bitRead_eq, Int.toNat_natCast]

/-- Witness for `setDigit_cell_spec`: digit 2, slot 1, cell 5 (a lit cell
of the mask of 2) with base colour hue 100, saturation 200. -/
theorem setDigit_cell_spec_witness :
    (setDigitWrites 1 ((2 : Nat) : Int) ⟨100, 200, 7⟩)[5]? =
      some (1 * 30 + 5, ⟨100, 200, 255⟩) := by
  rw [setDigit_cell_spec 1 2 5 ⟨100, 200, 7⟩ (by decide) (by decide) (by decide)]
  decide

/-! ### C8 -/

theorem tick_log_active (inp : TickInput) (msg : List Char) (st dur cum : Nat)
    (mode : Mode) (tv : Int) :
    (tick inp ⟨msg, st, dur, cum, State.Active, mode, tv⟩).log
      = (activeStep inp (readSerial inp.serialByte msg)
          ⟨readSerial inp.serialByte msg, st, dur, cum, State.Active, mode, tv⟩).log := rfl

theorem tick_log_inactive (inp : TickInput) (msg : List Char) (st dur cum : Nat)
    (mode : Mode) (tv : Int) :
    (tick inp ⟨msg, st, dur, cum, State.Inactive, mode, tv⟩).log
      = inactiveLog inp (readSerial inp.serialByte msg) := rfl

/-- C8: in every tick, at most one Start/Stop transition of the engine is
performed (the idle housekeeping `Reset()`s and the in-line expiry
assignment are not Start/Stop transitions), and the LED output of the
tick is rendered, once, from the post-transition `timeValue` and hue —
input is a single per-tick sample by construction of `tick`'s argument
type. -/
theorem single_transition_per_tick (inp : TickInput) (s : Sys) :
    (tick inp s).log.countP isStartStop ≤ 1 ∧
    (tick inp s).ledWrites
      = renderWrites (tick inp s).sys.timeValue (tick inp s).timeHue := by
  refine ⟨?_, rfl⟩
  rcases s with ⟨msg, st, dur, cum, state, mode, tv⟩
  cases state
  · rw [tick_log_inactive]
    unfold inactiveLog
    cases hbl : inp.btnLeftPressed <;> cases hbr : inp.btnRightPressed <;>
      cases htc : toggleCond inp (readSerial inp.serialByte msg) <;>
        simp [isStartStop, List.countP_cons, List.countP_append]
  · rw [tick_log_active]
    cases mode
    · cases htc : toggleCond inp (readSerial inp.serialByte msg) <;>
        simp [activeStep, htc, isStartStop, List.countP_cons]
    · by_cases hq : countdownTV ⟨readSerial inp.serialByte msg, st, dur, cum,
        State.Active, Mode.CountDown, tv⟩ inp.currentTime ≤ 0 <;>
        cases htc : toggleCond inp (readSerial inp.serialByte msg) <;>
          simp [activeStep, hq, htc, isStartStop, List.countP_cons, List.countP_append]

/-! ### C9 -/

/-- Inductive invariant for C9: the configured duration fits in 32 bits,
and whenever the engine is Active in CountDown mode the duration is
nonzero. -/
def EngineInv (s : Sys) : Prop :=
  s.timerDuration < 4294967296 ∧
  (s.state = State.Active → s.mode = Mode.CountDown → 0 < s.timerDuration)

theorem reachable_engineInv (s : Sys) (h : Reachable s) : EngineInv s := by
  induction h with
  | init => exact ⟨by decide, by intro h1 _; exact absurd h1 (by decide)⟩
  | step inp s hs ih =>
    rcases s with ⟨msg, st, dur, cum, state, mode, tv⟩
    obtain ⟨ih1, ih2⟩ := ih
    cases state
    · rw [tick_sys_inactive]
      constructor
      · rw [inactiveSys, applyStartToggle_dur]
        exact applyRight_dur_lt _ _
          (Nat.lt_of_le_of_lt (applyLeft_dur_le _ _) (applyMessage_dur_lt _ _))
      · intro hA hM
        rw [inactiveSys] at hA hM ⊢
        cases htc : toggleCond inp (readSerial inp.serialByte msg)
        · rw [htc, applyStartToggle_false] at hA
          rw [applyRight_state _ _ (applyLeft_state _ _ (applyMessage_state _ _))] at hA
          exact absurd hA (by decide)
        · rw [htc, applyStartToggle_true] at hM
          rw [applyStartToggle_true]
          simp only [Start] at hM ⊢
          split at hM
          · exact absurd hM (by decide)
          · omega
    · constructor
      · rw [tick_sys_active, activeStep_dur]
        exact ih1
      · intro hA hM
        rw [tick_sys_active, activeStep_mode] at hM
        rw [tick_sys_active, activeStep_dur]
        exact ih2 rfl hM

/-- C9: in every reachable state that is Active in CountDown mode,
`timerDuration` is nonzero (as an unsigned value and as the signed `long`
the Arduino `map` call receives), so the hue interpolation
`map(timeValue, 0, timerDuration, 0, 100)` never divides by zero:
CountDown is selected at Start only when `timerDuration != 0` and the
duration is never modified while Active. -/
theorem active_countdown_duration_pos (s : Sys) (hr : Reachable s)
    (hA : s.state = State.Active) (hM : s.mode = Mode.CountDown) :
    0 < s.timerDuration ∧ toSigned32 s.timerDuration ≠ 0 := by
  obtain ⟨h1, h2⟩ := reachable_engineInv s hr
  have h3 := h2 hA hM
  refine ⟨h3, ?_⟩
  unfold toSigned32
  split <;> omega

/-- Witness for `active_countdown_duration_pos`: the state reached by one
tick that buffers the digit '2' and toggles Start. -/
theorem active_countdown_duration_pos_witness :
    0 < (tick ⟨true, false, false, some '2', 0⟩ initialSys).sys.timerDuration ∧
    toSigned32 (tick ⟨true, false, false, some '2', 0⟩ initialSys).sys.timerDuration ≠ 0 :=
  active_countdown_duration_pos _
    (Reachable.step ⟨true, false, false, some '2', 0⟩ initialSys Reachable.init)
    (by decide) (by decide)

/-! ### C10 -/

/-- Counterexample to C10.  The remote message "-1" (the bytes '-' then
'1') leaves the idle tick rendering with stored `timeValue = −60000`:
the render step then computes `minutes = −1` and `minutes % 10 = −1`
(C truncating division and remainder), so it calls `setDigit(1, −1, …)`
— a digit value outside 0–9, for which the C table access `digits[-1]`
is an out-of-bounds array read rather than a read of bits 0–29 of a
mask.  So not every per-tick render call has its digit value in 0–9, as
the claim presumes of all of them. -/
theorem negative_render_call_cex :
    (runTicks [⟨false, false, false, some '-', 0⟩, ⟨false, false, false, some '1', 20⟩]
      initialSys).timeValue = -60000 ∧
    renderCalls (-60000) = [(3, 0), (2, 0), (1, -1), (0, 0)] ∧
    ¬ (((renderCalls (-60000)).all fun p => decide (0 ≤ p.2 ∧ p.2 ≤ 9)) = true) :=
  ⟨by decide, by decide, by decide⟩

/-- C10 (amended): restricted to renders whose stored `timeValue` is
non-negative.  Then the four `setDigit` calls of the MM:SS display use
slot indices 0–3 and digit values 0–9, every LED write lands at strip
index `display*NUM_LEDS_PER_DIGIT + i ≤ 119` inside the 120-element
`leds` array, and each call performs exactly 30 cell writes, reading
only mask bits 0–29 of the 32-bit digit mask.  The restriction is
forced: a render with negative `timeValue` is reachable (remote message
"-1", see the counterexample), and there the minutes digit is −1, so
`digits[-1]` is read out of bounds and no mask-bit bound applies. -/
theorem render_writes_in_bounds (tv hue : Int) (h : 0 ≤ tv) :
    ((renderCalls tv).all fun p => decide (p.1 ≤ 3 ∧ 0 ≤ p.2 ∧ p.2 ≤ 9)) = true ∧
    ((renderWrites tv hue).all fun p => decide (p.1 ≤ 119)) = true ∧
    ((renderCalls tv).all fun p =>
      decide ((setDigitWrites p.1 p.2 ⟨intToU8 hue, 255, 255⟩).length = 30)) = true := by
  have hA : ∀ x : Int, 0 ≤ x → 0 ≤ cmod x 10 ∧ cmod x 10 ≤ 9 := by
    intro x hx
    have hlt := Int.tmod_lt_of_pos x (show (0 : Int) < 10 by decide)
    exact ⟨Int.tmod_nonneg 10 hx, by unfold cmod; omega⟩
  have hs0 : 0 ≤ cdiv tv 1000 := Int.tdiv_nonneg h (by decide)
  have hsec : 0 ≤ cmod (cdiv tv 1000) 60 := Int.tmod_nonneg 60 hs0
  have hmin : 0 ≤ cdiv tv 60000 := Int.tdiv_nonneg h (by decide)
  have hsec10 : 0 ≤ cdiv (cmod (cdiv tv 1000) 60) 10 := Int.tdiv_nonneg hsec (by decide)
  have hmin10 : 0 ≤ cdiv (cdiv tv 60000) 10 := Int.tdiv_nonneg hmin (by decide)
  refine ⟨?_, ?_, ?_⟩
  · rw [List.all_eq_true]
    intro p hp
    simp only [renderCalls, List.mem_cons, List.not_mem_nil, or_false] at hp
    rcases hp with rfl | rfl | rfl | rfl <;>
      · rw [decide_eq_true_eq]
        exact ⟨by omega, by first
          | exact ⟨(hA _ hsec).1, (hA _ hsec).2⟩
          | exact ⟨(hA _ hsec10).1, (hA _ hsec10).2⟩
          | exact ⟨(hA _ hmin).1, (hA _ hmin).2⟩
          | exact ⟨(hA _ hmin10).1, (hA _ hmin10).2⟩⟩
  · rw [List.all_eq_true]
    intro p hp
    simp only [renderWrites, List.mem_flatMap] at hp
    obtain ⟨q, hq, hp⟩ := hp
    simp only [setDigitWrites, NUM_LEDS_PER_DIGIT, List.mem_map, List.mem_range] at hp
    obtain ⟨i, hi, rfl⟩ := hp
    simp only [renderCalls, List.mem_cons, List.not_mem_nil, or_false] at hq
    rw [decide_eq_true_eq]
    rcases hq with rfl | rfl | rfl | rfl <;> (show _ * 30 + i ≤ 119; omega)
  · rw [List.all_eq_true]
    intro p hp
    rw [decide_eq_true_eq]
    simp [setDigitWrites, NUM_LEDS_PER_DIGIT]

/-- Witness for `render_writes_in_bounds` at `timeValue` 1500 ms, hue 0. -/
theorem render_writes_in_bounds_witness :
    ((renderCalls 1500).all fun p => decide (p.1 ≤ 3 ∧ 0 ≤ p.2 ∧ p.2 ≤ 9)) = true ∧
    ((renderWrites 1500 0).all fun p => decide (p.1 ≤ 119)) = true ∧
    ((renderCalls 1500).all fun p =>
      decide ((setDigitWrites p.1 p.2 ⟨intToU8 0, 255, 255⟩).length = 30)) = true :=
  render_writes_in_bounds 1500 0 (by decide)

end CountdownTimer
